import Mathlib

/-!
Shallow embedding of the opentargets-mcp server (src/src/index.ts), covering
the argument validators, the bounded incremental pagination aggregator used by
the association-lookup handlers, the disease-targets-summary handler, and the
search handlers.  Scores are modelled as rationals; JS falsy-or defaults are
modelled explicitly; the network is modelled as an oracle from page index to
either a parsed page or a thrown error message.
-/

deriving instance DecidableEq for Except

/-- Association row: one scored edge, carrying the counterpart entity's
identifier, approved symbol and name (target rows use all three; disease rows
use id and name), as selected by the GraphQL queries in the handlers. -/
structure Row where
  id : String
  symbol : String
  name : String
  score : Rat
deriving DecidableEq

/-- Page as the loop body sees it after the optional-chaining defaults:
the rows list (`associations?.rows || []`), the upstream-reported count
(`associations?.count || 0` is applied where captured), and the entity
display fields (which may be `undefined` when the entity is missing). -/
structure Page where
  rows : List Row
  count : Nat
  entityId : Option String
  entityName : Option String
deriving DecidableEq

/-- Loop state of the aggregation `while (hasMore)` loop:
`allRows`, `pageIndex`, `totalCount`, and the captured entity fields. -/
structure AggState where
  allRows : List Row
  pageIndex : Nat
  totalCount : Nat
  entityId : Option String
  entityName : Option String
deriving DecidableEq

/-- Fixed internal page size (`const pageSize = 100` in all three loops). -/
def pageSize : Nat := 100

/-- First-iteration capture: `if (pageIndex === 0) { totalCount = ...; ... }`. -/
def captureFirst (st : AggState) (page : Page) : AggState :=
  if st.pageIndex = 0 then
    { st with totalCount := page.count, entityId := page.entityId,
              entityName := page.entityName }
  else st

/-- Row accumulation and page-index bump:
`allRows = allRows.concat(rows); pageIndex += 1;`. -/
def appendPage (st : AggState) (rows : List Row) : AggState :=
  { st with allRows := st.allRows ++ rows, pageIndex := st.pageIndex + 1 }

/-- The aggregation loop.  One unit of fuel is one iteration of the source's
`while (hasMore)` loop, i.e. exactly one fetch; `none` means the fuel ran out
before the loop halted.  A thrown fetch is an `Except.error`, which the
enclosing `try`/`catch` turns into the error envelope.  The continuation test
is the source's
`hasMore = rows.length === pageSize && allRows.length < totalCount && allRows.length < requestedSize`
evaluated after capture and accumulation. -/
def aggLoop (fetch : Nat → Except String Page) (requestedSize : Nat) :
    Nat → AggState → Option (Except String AggState)
  | 0, _ => none
  | fuel + 1, st =>
    match fetch st.pageIndex with
    | Except.error e => some (Except.error e)
    | Except.ok page =>
      let st2 := appendPage (captureFirst st page) page.rows
      if page.rows.length = pageSize ∧ st2.allRows.length < st2.totalCount ∧
          st2.allRows.length < requestedSize then
        aggLoop fetch requestedSize fuel st2
      else
        some (Except.ok st2)

/-- Initial loop state: `allRows = []; pageIndex = 0; totalCount = 0`,
entity fields undefined. -/
def initState : AggState :=
  { allRows := [], pageIndex := 0, totalCount := 0,
    entityId := none, entityName := none }

/-- Fuel given to the loop: one more than the ceiling of
requestedSize / pageSize.  The halting lemma below shows this fuel is never
exhausted, so the fuelled loop is the loop. -/
def iterBound (requestedSize : Nat) : Nat :=
  (requestedSize + 99) / pageSize + 1

/-- Post-aggregation score filter:
`minScore > 0 ? allRows.filter(row => row.score >= minScore) : allRows`. -/
def applyMinScore (minScore : Rat) (rows : List Row) : List Row :=
  if 0 < minScore then rows.filter (fun r => minScore ≤ r.score) else rows

/-- Pagination metadata block `{requested, returned, total, filtered}`. -/
structure Pagination where
  requested : Nat
  returned : Nat
  total : Nat
  filtered : Nat
deriving DecidableEq

/-- Success envelope of the two association branches: entity fields, the
first-page count, the truncated row list, and the pagination block. -/
structure AssocResponse where
  entityId : Option String
  entityName : Option String
  count : Nat
  rows : List Row
  pagination : Pagination
deriving DecidableEq

/-- Envelope construction after the loop: filter, truncate to the requested
size, and report `returned = limitedRows.length`, `total = totalCount`,
`filtered = filteredRows.length`. -/
def finishAgg (minScore : Rat) (requestedSize : Nat) (st : AggState) :
    AssocResponse :=
  let filteredRows := applyMinScore minScore st.allRows
  let limitedRows := filteredRows.take requestedSize
  { entityId := st.entityId, entityName := st.entityName,
    count := st.totalCount, rows := limitedRows,
    pagination :=
      { requested := requestedSize, returned := limitedRows.length,
        total := st.totalCount, filtered := filteredRows.length } }

/-- One full aggregation run: loop, then filter and cap.  `none` is fuel
exhaustion (shown impossible), `some (Except.error e)` is the caught fetch
failure, `some (Except.ok env)` the success envelope. -/
def aggregateAssoc (fetch : Nat → Except String Page) (minScore : Rat)
    (requestedSize : Nat) : Option (Except String AssocResponse) :=
  match aggLoop fetch requestedSize (iterBound requestedSize) initState with
  | none => none
  | some (Except.error e) => some (Except.error e)
  | some (Except.ok st) => some (Except.ok (finishAgg minScore requestedSize st))

/-- JS `x || d` on an optional number: `undefined` and `0` both give the
default. -/
def jsOrNat : Option Nat → Nat → Nat
  | some n, d => if n = 0 then d else n
  | none, d => d

/-- JS `x || d` on an optional score. -/
def jsOrRat : Option Rat → Rat → Rat
  | some q, d => if q = 0 then d else q
  | none, d => d

/-- JS `s || d` on an optional string: `undefined` and the empty string both
give the default. -/
def jsOrString : Option String → String → String
  | some s, d => if s.isEmpty then d else s
  | none, d => d

/-- JS truthiness of a possibly-absent string: present and non-empty. -/
def truthy : Option String → Bool
  | some s => !s.isEmpty
  | none => false

/-- Argument bag of get_target_disease_associations, after the typeof checks
have narrowed each field. -/
structure AssocArgs where
  targetId : Option String
  diseaseId : Option String
  minScore : Option Rat
  size : Option Nat
deriving DecidableEq

/-- Validator `isValidAssociationArgs`: optional minScore in [0,1], optional
size in (0, 50000], and at least one of targetId/diseaseId present. -/
def isValidAssociationArgs (a : AssocArgs) : Bool :=
  (match a.minScore with
   | none => true
   | some q => decide (0 ≤ q) && decide (q ≤ 1)) &&
  (match a.size with
   | none => true
   | some n => decide (0 < n) && decide (n ≤ 50000)) &&
  (a.targetId.isSome || a.diseaseId.isSome)

/-- Outcome of the association handler: the thrown InvalidParams error, the
not-implemented stub, a success envelope from the target branch or the
disease branch, or the caught upstream failure. -/
inductive AssocOutcome where
  | invalidParams
  | stub
  | byTarget (env : AssocResponse)
  | byDisease (env : AssocResponse)
  | upstreamError (msg : String)
deriving DecidableEq

/-- Handler handleGetTargetDiseaseAssociations: validate, default
`size || 100` and `minScore || 0`, dispatch on string truthiness of
targetId/diseaseId, run the aggregation in the chosen branch, and fall
through to the stub when neither branch is selected. -/
def handleGetTargetDiseaseAssociations (fetch : Nat → Except String Page)
    (a : AssocArgs) : Option AssocOutcome :=
  if !isValidAssociationArgs a then some AssocOutcome.invalidParams
  else if truthy a.targetId && !truthy a.diseaseId then
    match aggregateAssoc fetch (jsOrRat a.minScore 0) (jsOrNat a.size 100) with
    | none => none
    | some (Except.error e) => some (AssocOutcome.upstreamError e)
    | some (Except.ok env) => some (AssocOutcome.byTarget env)
  else if truthy a.diseaseId && !truthy a.targetId then
    match aggregateAssoc fetch (jsOrRat a.minScore 0) (jsOrNat a.size 100) with
    | none => none
    | some (Except.error e) => some (AssocOutcome.upstreamError e)
    | some (Except.ok env) => some (AssocOutcome.byDisease env)
  else some AssocOutcome.stub

/-- Argument bag of get_disease_targets_summary. -/
structure SummaryArgs where
  id : Option String
  diseaseId : Option String
  minScore : Option Rat
  size : Option Nat
deriving DecidableEq

/-- Validator `isValidIdArgs` applied to the id field: a non-empty string. -/
def isValidIdArgs (i : Option String) : Bool :=
  match i with
  | some s => decide (0 < s.length)
  | none => false

/-- One row of the summary's `targets` projection. -/
structure SummaryTarget where
  targetId : String
  targetSymbol : String
  targetName : String
  associationScore : Rat
deriving DecidableEq

/-- Projection `assoc => ({targetId, targetSymbol, targetName,
associationScore})` applied to each limited row. -/
def toSummaryTarget (r : Row) : SummaryTarget :=
  { targetId := r.id, targetSymbol := r.symbol, targetName := r.name,
    associationScore := r.score }

/-- Summary success envelope. -/
structure SummaryResponse where
  diseaseId : Option String
  diseaseName : String
  totalTargets : Nat
  returnedTargets : Nat
  targets : List SummaryTarget
  pagination : Pagination
deriving DecidableEq

/-- Envelope construction of the summary handler after its loop. -/
def finishSummary (argDiseaseId argId : Option String) (minScore : Rat)
    (requestedSize : Nat) (st : AggState) : SummaryResponse :=
  let filteredRows := applyMinScore minScore st.allRows
  let limitedRows := filteredRows.take requestedSize
  { diseaseId := if truthy argDiseaseId then argDiseaseId else argId,
    diseaseName := jsOrString st.entityName "Unknown",
    totalTargets := st.totalCount,
    returnedTargets := limitedRows.length,
    targets := limitedRows.map toSummaryTarget,
    pagination :=
      { requested := requestedSize, returned := limitedRows.length,
        total := st.totalCount, filtered := filteredRows.length } }

/-- Outcome of the summary handler. -/
inductive SummaryOutcome where
  | invalidParams
  | success (env : SummaryResponse)
  | upstreamError (msg : String)
deriving DecidableEq

/-- Handler handleGetDiseaseTargetsSummary: invalid iff
`!isValidIdArgs(args) && !args.diseaseId`; defaults `size || 50` and
`minScore || 0`; same aggregation loop; summary envelope. -/
def handleGetDiseaseTargetsSummary (fetch : Nat → Except String Page)
    (a : SummaryArgs) : Option SummaryOutcome :=
  if !isValidIdArgs a.id && !truthy a.diseaseId then
    some SummaryOutcome.invalidParams
  else
    match aggLoop fetch (jsOrNat a.size 50) (iterBound (jsOrNat a.size 50))
        initState with
    | none => none
    | some (Except.error e) => some (SummaryOutcome.upstreamError e)
    | some (Except.ok st) =>
      some (SummaryOutcome.success
        (finishSummary a.diseaseId a.id (jsOrRat a.minScore 0)
          (jsOrNat a.size 50) st))

/-- Search argument bag (search_targets and search_diseases share the shape). -/
structure SearchArgs where
  query : Option String
  size : Option Nat
  format : Option String
deriving DecidableEq

/-- Validator `isValidTargetSearchArgs`: non-empty query, optional size in
(0, 50000], optional format in {json, tsv}. -/
def isValidTargetSearchArgs (a : SearchArgs) : Bool :=
  (match a.query with
   | some q => decide (0 < q.length)
   | none => false) &&
  (match a.size with
   | none => true
   | some n => decide (0 < n) && decide (n ≤ 50000)) &&
  (match a.format with
   | none => true
   | some f => f == "json" || f == "tsv")

/-- Validator `isValidDiseaseSearchArgs`: textually identical to the target
one in the source. -/
def isValidDiseaseSearchArgs (a : SearchArgs) : Bool :=
  (match a.query with
   | some q => decide (0 < q.length)
   | none => false) &&
  (match a.size with
   | none => true
   | some n => decide (0 < n) && decide (n ≤ 50000)) &&
  (match a.format with
   | none => true
   | some f => f == "json" || f == "tsv")

/-- One search hit as selected by the search queries. -/
structure SearchHit where
  id : String
  name : String
  description : String
  entity : String
deriving DecidableEq

/-- Reshaped search payload: capped hit list plus pre-cap total. -/
structure SearchResult where
  hits : List SearchHit
  total : Nat
deriving DecidableEq

/-- Search outcome: thrown InvalidParams, success, or caught fetch error. -/
inductive SearchOutcome where
  | invalidParams
  | success (r : SearchResult)
  | upstreamError (msg : String)
deriving DecidableEq

/-- Client-side cap: `hits.slice(0, args.size || 25)` with
`total: hits.length`. -/
def searchCap (hits : List SearchHit) (size : Option Nat) : SearchResult :=
  { hits := hits.take (jsOrNat size 25), total := hits.length }

/-- Handler handleSearchTargets: validate, single fetch
(`response.data.data?.search?.hits || []` modelled as the oracle's list),
cap and report. -/
def handleSearchTargets (upstreamHits : Except String (List SearchHit))
    (a : SearchArgs) : SearchOutcome :=
  if !isValidTargetSearchArgs a then SearchOutcome.invalidParams
  else
    match upstreamHits with
    | Except.error e => SearchOutcome.upstreamError e
    | Except.ok hits => SearchOutcome.success (searchCap hits a.size)

/-- Handler handleSearchDiseases: same body as the target search. -/
def handleSearchDiseases (upstreamHits : Except String (List SearchHit))
    (a : SearchArgs) : SearchOutcome :=
  if !isValidDiseaseSearchArgs a then SearchOutcome.invalidParams
  else
    match upstreamHits with
    | Except.error e => SearchOutcome.upstreamError e
    | Except.ok hits => SearchOutcome.success (searchCap hits a.size)

/-- Page i of an honest upstream over a fixed dataset: the rows from
position pageSize*i up to pageSize*(i+1), the true length as the reported
count, and fixed entity fields. -/
def honestPage (ds : List Row) (a b : String) (i : Nat) : Page :=
  { rows := (ds.drop (pageSize * i)).take pageSize, count := ds.length,
    entityId := some a, entityName := some b }

/-- Honest upstream for a fixed dataset: every fetch succeeds and returns
the corresponding honest page. -/
def honestFetch (ds : List Row) (a b : String) : Nat → Except String Page :=
  fun i => Except.ok (honestPage ds a b i)

/-- Projection: the returned row count of a successful aggregation. -/
def aggReturned : Option (Except String AssocResponse) → Option Nat
  | some (Except.ok env) => some env.pagination.returned
  | some (Except.error _) => none
  | none => none

/-- Projection: the final page index (= number of completed fetches) of a
normally terminated loop run. -/
def okPageIndex : Option (Except String AggState) → Option Nat
  | some (Except.ok st) => some st.pageIndex
  | some (Except.error _) => none
  | none => none

/-- Sample row with the lowest possible association score. -/
def rowLow : Row := { id := "L", symbol := "l", name := "low", score := 0 }

/-- Sample row with the highest possible association score. -/
def rowHigh : Row := { id := "H", symbol := "h", name := "high", score := 1 }

/-- Concrete upstream dataset of 101 rows: a full first page of score-0 rows
followed by a single score-1 row on the second page. -/
def dsCounter : List Row := List.replicate 100 rowLow ++ [rowHigh]

/-- Concrete full page reporting 300 total rows. -/
def pageFullLow : Page :=
  { rows := List.replicate 100 rowLow, count := 300,
    entityId := some "E", entityName := some "N" }

/-- Concrete upstream that serves one full page then throws. -/
def fetchBoom : Nat → Except String Page :=
  fun i => if i = 0 then Except.ok pageFullLow else Except.error "boom"

/-- Concrete full first page reporting 150 total rows. -/
def pageFirstOf150 : Page :=
  { rows := List.replicate 100 rowLow, count := 150,
    entityId := some "E", entityName := some "N" }

/-- Concrete short second page reporting a contradictory total of 999 and
different entity fields. -/
def pageSecondStray : Page :=
  { rows := [rowHigh], count := 999,
    entityId := some "X", entityName := some "Y" }

/-- Concrete upstream whose second page disagrees with the first about the
total count and the entity fields. -/
def fetchTwoCounts : Nat → Except String Page :=
  fun i => if i = 0 then Except.ok pageFirstOf150 else Except.ok pageSecondStray

/-- The envelope produced by aggregating fetchTwoCounts with no filter and
requested size 150. -/
def envTwoCounts : AssocResponse :=
  { entityId := some "E", entityName := some "N", count := 150,
    rows := List.replicate 100 rowLow ++ [rowHigh],
    pagination := { requested := 150, returned := 101, total := 150,
                    filtered := 101 } }

/-- Sample search hit. -/
def hitA : SearchHit :=
  { id := "ENSG00000012048", name := "BRCA1", description := "d",
    entity := "target" }

/-- Second sample search hit. -/
def hitB : SearchHit :=
  { id := "ENSG00000139618", name := "BRCA2", description := "d",
    entity := "target" }

/-- The envelope produced by aggregating a one-row honest dataset with
default arguments. -/
def envOneRow : AssocResponse :=
  { entityId := some "t", entityName := some "n", count := 1,
    rows := [rowHigh],
    pagination := { requested := 100, returned := 1, total := 1,
                    filtered := 1 } }

@[simp]
theorem captureFirst_allRows (st : AggState) (p : Page) :
    (captureFirst st p).allRows = st.allRows := by
  unfold captureFirst; split <;> rfl

@[simp]
theorem captureFirst_pageIndex (st : AggState) (p : Page) :
    (captureFirst st p).pageIndex = st.pageIndex := by
  unfold captureFirst; split <;> rfl

@[simp]
theorem appendPage_allRows (st : AggState) (rows : List Row) :
    (appendPage st rows).allRows = st.allRows ++ rows := rfl

@[simp]
theorem appendPage_pageIndex (st : AggState) (rows : List Row) :
    (appendPage st rows).pageIndex = st.pageIndex + 1 := rfl

@[simp]
theorem appendPage_totalCount (st : AggState) (rows : List Row) :
    (appendPage st rows).totalCount = st.totalCount := rfl

@[simp]
theorem appendPage_entityId (st : AggState) (rows : List Row) :
    (appendPage st rows).entityId = st.entityId := rfl

@[simp]
theorem appendPage_entityName (st : AggState) (rows : List Row) :
    (appendPage st rows).entityName = st.entityName := rfl

/-- Sufficient-fuel lemma: once the requested size is covered by the fuel at
one hundred rows per iteration, the loop cannot run out, because every
continuing iteration appends exactly pageSize rows and requires the
accumulated length to still be below the requested size. -/
theorem aggLoop_halts (fetch : Nat → Except String Page) (R : Nat) :
    ∀ (fuel : Nat) (st : AggState), R ≤ st.allRows.length + pageSize * fuel →
      (aggLoop fetch R (fuel + 1) st).isSome = true := by
  intro fuel
  induction fuel with
  | zero =>
    intro st h
    simp only [aggLoop]
    cases hf : fetch st.pageIndex with
    | error e => rfl
    | ok page =>
      simp only
      split
      · next hc =>
        exfalso
        have h3 := hc.2.2
        simp only [appendPage_allRows, captureFirst_allRows,
          List.length_append] at h3
        omega
      · rfl
  | succ k ih =>
    intro st h
    simp only [aggLoop]
    cases hf : fetch st.pageIndex with
    | error e => rfl
    | ok page =>
      simp only
      split
      · next hc =>
        apply ih
        have h1 := hc.1
        simp only [appendPage_allRows, captureFirst_allRows,
          List.length_append, h1, pageSize] at h ⊢
        omega
      · rfl

/-- Claim C2: for every requested size R and every sequence of upstream page
responses, including responses whose reported total count is wrong and
responses that throw, the aggregation loop halts within
ceil(R / 100) + 1 fetch iterations.  One unit of fuel of aggLoop is one
iteration of the while loop and performs exactly one fetch, so running the
loop with fuel (R + 99) / 100 + 1 and obtaining a result (rather than fuel
exhaustion) is exactly the claimed bound. -/
theorem C2_loop_halts_within_bound (fetch : Nat → Except String Page)
    (R : Nat) :
    (aggLoop fetch R ((R + 99) / 100 + 1) initState).isSome = true := by
  have h := aggLoop_halts fetch R ((R + 99) / 100) initState
  apply h
  simp only [initState, pageSize, List.length_nil]
  omega

@[simp]
theorem initState_allRows : initState.allRows = [] := rfl

@[simp]
theorem initState_pageIndex : initState.pageIndex = 0 := rfl

@[simp]
theorem initState_totalCount : initState.totalCount = 0 := rfl

/-- Claim C6: for every requested size R with R at most one internal page,
the aggregation loop performs exactly one fetch, whatever the upstream
returns: one unit of fuel already suffices (so there is no second
iteration), the first iteration always runs its fetch, and on normal
termination the final page index, which counts completed fetches, is 1. -/
theorem C6_single_page_one_fetch (fetch : Nat → Except String Page)
    (R : Nat) (h : R ≤ 100) :
    (aggLoop fetch R 1 initState).isSome = true ∧
    (okPageIndex (aggLoop fetch R 1 initState) = none ∨
     okPageIndex (aggLoop fetch R 1 initState) = some 1) := by
  simp only [aggLoop]
  cases hf : fetch initState.pageIndex with
  | error e => exact ⟨rfl, Or.inl rfl⟩
  | ok page =>
    simp only
    split
    · next hc =>
      exfalso
      have h1 := hc.1
      have h3 := hc.2.2
      simp only [appendPage_allRows, captureFirst_allRows, initState_allRows,
        List.length_append, List.length_nil, h1, pageSize] at h3
      omega
    · refine ⟨rfl, Or.inr ?_⟩
      simp [okPageIndex]

/-- Witness for C6 at requested size 7 against a one-row upstream. -/
theorem C6_witness :
    (7 : Nat) ≤ 100 ∧
    ((aggLoop (honestFetch [rowHigh] "a" "b") 7 1 initState).isSome = true ∧
     (okPageIndex (aggLoop (honestFetch [rowHigh] "a" "b") 7 1 initState)
        = none ∨
      okPageIndex (aggLoop (honestFetch [rowHigh] "a" "b") 7 1 initState)
        = some 1)) :=
  ⟨by decide, C6_single_page_one_fetch (honestFetch [rowHigh] "a" "b") 7
    (by decide)⟩

/-- Counterexample to claim C3 as stated: an argument bag with both
identifiers present, the disease one empty, is dispatched by string
truthiness to the target-aggregation branch, not to the documented
not-implemented stub. -/
theorem C3_counterexample :
    handleGetTargetDiseaseAssociations (honestFetch [] "t" "n")
      { targetId := some "ENSG00000012048", diseaseId := some "",
        minScore := none, size := none }
      ≠ some AssocOutcome.stub := by decide

/-- Claim C3 amended: a lookup with neither identifier present yields the
invalid-parameters failure for every upstream (so before any fetch); a
valid lookup with both identifiers present and non-empty yields the
documented stub for every upstream.  When both are present but exactly one
is empty, dispatch follows string truthiness and runs the aggregation for
the non-empty identifier instead (see the counterexample). -/
theorem C3_amended_dispatch (fetch : Nat → Except String Page)
    (a : AssocArgs) :
    (a.targetId = none → a.diseaseId = none →
      handleGetTargetDiseaseAssociations fetch a
        = some AssocOutcome.invalidParams) ∧
    (isValidAssociationArgs a = true → truthy a.targetId = true →
      truthy a.diseaseId = true →
      handleGetTargetDiseaseAssociations fetch a = some AssocOutcome.stub) := by
  constructor
  · intro ht hd
    have hv : isValidAssociationArgs a = false := by
      simp [isValidAssociationArgs, ht, hd]
    unfold handleGetTargetDiseaseAssociations
    simp [hv]
  · intro hv ht hd
    unfold handleGetTargetDiseaseAssociations
    simp [hv, ht, hd]

/-- Witness for C3 amended: both halves at concrete bags. -/
theorem C3_witness :
    handleGetTargetDiseaseAssociations (honestFetch [] "t" "n")
      { targetId := none, diseaseId := none, minScore := none, size := none }
      = some AssocOutcome.invalidParams ∧
    handleGetTargetDiseaseAssociations (honestFetch [] "t" "n")
      { targetId := some "A", diseaseId := some "B", minScore := none,
        size := none }
      = some AssocOutcome.stub :=
  ⟨(C3_amended_dispatch (honestFetch [] "t" "n") _).1 rfl rfl,
   (C3_amended_dispatch (honestFetch [] "t" "n") _).2 (by decide) (by decide)
     (by decide)⟩

/-- Claim C9: a bag with exactly one of targetId/diseaseId present but equal
to the empty string passes isValidAssociationArgs (which tests presence
only), yet the handler answers with the not-implemented stub for every
upstream, performing no fetch, because both dispatch branches test string
truthiness and the empty string is falsy. -/
theorem C9_empty_id_truthiness_stub (fetch : Nat → Except String Page)
    (a : AssocArgs)
    (hone : (a.targetId = some "" ∧ a.diseaseId = none) ∨
            (a.diseaseId = some "" ∧ a.targetId = none))
    (hm : ∀ q, a.minScore = some q → 0 ≤ q ∧ q ≤ 1)
    (hs : ∀ n, a.size = some n → 0 < n ∧ n ≤ 50000) :
    isValidAssociationArgs a = true ∧
    handleGetTargetDiseaseAssociations fetch a = some AssocOutcome.stub := by
  have hms : (match a.minScore with
      | none => true
      | some q => decide (0 ≤ q) && decide (q ≤ 1)) = true := by
    cases hq : a.minScore with
    | none => rfl
    | some q =>
      have h2 := hm q hq
      simp [h2.1, h2.2]
  have hsz : (match a.size with
      | none => true
      | some n => decide (0 < n) && decide (n ≤ 50000)) = true := by
    cases hq : a.size with
    | none => rfl
    | some n =>
      have h2 := hs n hq
      simp [h2.1, h2.2]
  have hv : isValidAssociationArgs a = true := by
    unfold isValidAssociationArgs
    rw [hms, hsz]
    rcases hone with ⟨h1, h2⟩ | ⟨h1, h2⟩ <;> simp [h1, h2]
  refine ⟨hv, ?_⟩
  have hte : truthy (some "") = false := by decide
  have htn : truthy none = false := rfl
  unfold handleGetTargetDiseaseAssociations
  rcases hone with ⟨h1, h2⟩ | ⟨h1, h2⟩ <;> simp [hv, h1, h2, hte, htn]

/-- Witness for C9 at the bag with an empty targetId only. -/
theorem C9_witness :
    isValidAssociationArgs
      { targetId := some "", diseaseId := none, minScore := none,
        size := none } = true ∧
    handleGetTargetDiseaseAssociations (honestFetch [] "x" "y")
      { targetId := some "", diseaseId := none, minScore := none,
        size := none } = some AssocOutcome.stub :=
  C9_empty_id_truthiness_stub (honestFetch [] "x" "y") _
    (Or.inl ⟨rfl, rfl⟩) (fun q hq => by simp at hq) (fun n hn => by simp at hn)

/-- Counterexample to claim C7 as stated: the summary handler accepts a
result-size bound of 501, well outside [1,500], uses it as the requested
size of the envelope, and does not answer invalid-parameters. -/
theorem C7_counterexample :
    handleGetDiseaseTargetsSummary
      (fun _ => Except.ok { rows := [], count := 0, entityId := none,
                            entityName := some "D" })
      { id := none, diseaseId := some "EFO_1", minScore := none,
        size := some 501 }
      = some (SummaryOutcome.success
        { diseaseId := some "EFO_1", diseaseName := "D", totalTargets := 0,
          returnedTargets := 0, targets := [],
          pagination := { requested := 501, returned := 0, total := 0,
                          filtered := 0 } }) ∧
    handleGetDiseaseTargetsSummary
      (fun _ => Except.ok { rows := [], count := 0, entityId := none,
                            entityName := some "D" })
      { id := none, diseaseId := some "EFO_1", minScore := none,
        size := some 501 }
      ≠ some SummaryOutcome.invalidParams := by
  constructor <;> decide

/-- Claim C7 amended: the summary handler validates only the presence of a
disease identifier (a non-empty id argument or a truthy diseaseId argument);
the [1,500] size bound of the tool's input schema is not enforced by the
handler, so no size value makes it answer invalid-parameters once a disease
identifier is supplied. -/
theorem C7_amended_size_not_validated (fetch : Nat → Except String Page)
    (a : SummaryArgs) :
    (isValidIdArgs a.id = false → truthy a.diseaseId = false →
      handleGetDiseaseTargetsSummary fetch a
        = some SummaryOutcome.invalidParams) ∧
    (truthy a.diseaseId = true →
      handleGetDiseaseTargetsSummary fetch a
        ≠ some SummaryOutcome.invalidParams) := by
  constructor
  · intro h1 h2
    unfold handleGetDiseaseTargetsSummary
    simp [h1, h2]
  · intro h2
    unfold handleGetDiseaseTargetsSummary
    simp only [h2, Bool.not_true, Bool.and_false, Bool.false_eq_true,
      if_false]
    cases hL : aggLoop fetch (jsOrNat a.size 50)
        (iterBound (jsOrNat a.size 50)) initState with
    | none => simp
    | some r =>
      cases r with
      | error e => simp
      | ok st => simp

/-- Witness for C7 amended: both halves at concrete bags. -/
theorem C7_witness :
    handleGetDiseaseTargetsSummary (honestFetch [] "a" "b")
      { id := none, diseaseId := none, minScore := none, size := some 3 }
      = some SummaryOutcome.invalidParams ∧
    handleGetDiseaseTargetsSummary (honestFetch [] "a" "b")
      { id := none, diseaseId := some "EFO_0000305", minScore := none,
        size := some 501 }
      ≠ some SummaryOutcome.invalidParams :=
  ⟨(C7_amended_size_not_validated (honestFetch [] "a" "b") _).1 (by decide)
      (by decide),
   (C7_amended_size_not_validated (honestFetch [] "a" "b") _).2 (by decide)⟩

/-- Claim C8: both search handlers, on a successful upstream call with valid
arguments, return the first min(requested size, number of upstream hits)
hits in upstream order (the take of the upstream list) and report the
pre-cap hit count as total. -/
theorem C8_search_cap_and_total (hits : List SearchHit) (a : SearchArgs)
    (q : String) (n : Nat)
    (hq : a.query = some q) (hql : 0 < q.length)
    (hn : a.size = some n) (hn1 : 0 < n) (hn2 : n ≤ 50000)
    (hf : a.format = none ∨ a.format = some "json" ∨ a.format = some "tsv") :
    handleSearchTargets (Except.ok hits) a
      = SearchOutcome.success { hits := hits.take n, total := hits.length } ∧
    handleSearchDiseases (Except.ok hits) a
      = SearchOutcome.success { hits := hits.take n, total := hits.length } ∧
    (hits.take n).length = min n hits.length := by
  have hvt : isValidTargetSearchArgs a = true := by
    unfold isValidTargetSearchArgs
    rw [hq, hn]
    rcases hf with h | h | h <;> rw [h] <;> simp [hql, hn1, hn2]
  have hvd : isValidDiseaseSearchArgs a = true := by
    unfold isValidDiseaseSearchArgs
    rw [hq, hn]
    rcases hf with h | h | h <;> rw [h] <;> simp [hql, hn1, hn2]
  have hjs : jsOrNat (some n) 25 = n := by
    simp only [jsOrNat]
    rw [if_neg (by omega)]
  have hcap : searchCap hits a.size
      = { hits := hits.take n, total := hits.length } := by
    unfold searchCap
    rw [hn, hjs]
  refine ⟨?_, ?_, List.length_take n hits⟩
  · unfold handleSearchTargets
    simp [hvt, hcap]
  · unfold handleSearchDiseases
    simp [hvd, hcap]

/-- Witness for C8 on a two-hit upstream with requested size 1. -/
theorem C8_witness :
    handleSearchTargets (Except.ok [hitA, hitB])
      { query := some "BRCA1", size := some 1, format := none }
      = SearchOutcome.success
          { hits := [hitA, hitB].take 1, total := [hitA, hitB].length } ∧
    handleSearchDiseases (Except.ok [hitA, hitB])
      { query := some "BRCA1", size := some 1, format := none }
      = SearchOutcome.success
          { hits := [hitA, hitB].take 1, total := [hitA, hitB].length } ∧
    ([hitA, hitB].take 1).length = min 1 [hitA, hitB].length :=
  C8_search_cap_and_total [hitA, hitB]
    { query := some "BRCA1", size := some 1, format := none }
    "BRCA1" 1 rfl (by decide) rfl (by decide) (by decide) (Or.inl rfl)

/-- Envelope-shape lemma: whatever final state the loop produced, finishAgg
reports returned as the min of requested and filtered, equal to the length
of the included row list. -/
theorem finishAgg_shape (m : Rat) (R : Nat) (st : AggState) :
    (finishAgg m R st).pagination.requested = R ∧
    (finishAgg m R st).pagination.filtered
      = (applyMinScore m st.allRows).length ∧
    (finishAgg m R st).pagination.returned
      = min R (applyMinScore m st.allRows).length ∧
    (finishAgg m R st).rows.length
      = (finishAgg m R st).pagination.returned := by
  refine ⟨rfl, rfl, ?_, ?_⟩ <;> simp [finishAgg, List.length_take]

/-- Inversion: a successful aggregation envelope is finishAgg of some final
loop state. -/
theorem aggregateAssoc_ok_inv (fetch : Nat → Except String Page) (m : Rat)
    (R : Nat) (env : AssocResponse)
    (h : aggregateAssoc fetch m R = some (Except.ok env)) :
    ∃ st, aggLoop fetch R (iterBound R) initState = some (Except.ok st) ∧
      env = finishAgg m R st := by
  unfold aggregateAssoc at h
  cases hL : aggLoop fetch R (iterBound R) initState with
  | none => rw [hL] at h; simp at h
  | some r =>
    cases r with
    | error e => rw [hL] at h; simp at h
    | ok st =>
      rw [hL] at h
      simp only [Option.some.injEq, Except.ok.injEq] at h
      exact ⟨st, rfl, h.symm⟩

/-- Inversion: a byTarget success of the association handler comes from a
successful aggregation at the defaulted minScore and size. -/
theorem handleAssoc_byTarget_inv (fetch : Nat → Except String Page)
    (a : AssocArgs) (env : AssocResponse)
    (h : handleGetTargetDiseaseAssociations fetch a
      = some (AssocOutcome.byTarget env)) :
    aggregateAssoc fetch (jsOrRat a.minScore 0) (jsOrNat a.size 100)
      = some (Except.ok env) := by
  unfold handleGetTargetDiseaseAssociations at h
  split at h
  · simp at h
  · split at h
    · split at h <;> simp_all
    · split at h
      · split at h <;> simp_all
      · simp at h

/-- Inversion: a byDisease success of the association handler comes from a
successful aggregation at the defaulted minScore and size. -/
theorem handleAssoc_byDisease_inv (fetch : Nat → Except String Page)
    (a : AssocArgs) (env : AssocResponse)
    (h : handleGetTargetDiseaseAssociations fetch a
      = some (AssocOutcome.byDisease env)) :
    aggregateAssoc fetch (jsOrRat a.minScore 0) (jsOrNat a.size 100)
      = some (Except.ok env) := by
  unfold handleGetTargetDiseaseAssociations at h
  split at h
  · simp at h
  · split at h
    · split at h <;> simp_all
    · split at h
      · split at h <;> simp_all
      · simp at h

/-- Inversion: a summary success is finishSummary of some final loop state. -/
theorem handleSummary_success_inv (fetch : Nat → Except String Page)
    (s : SummaryArgs) (senv : SummaryResponse)
    (h : handleGetDiseaseTargetsSummary fetch s
      = some (SummaryOutcome.success senv)) :
    ∃ st, senv = finishSummary s.diseaseId s.id (jsOrRat s.minScore 0)
      (jsOrNat s.size 50) st := by
  unfold handleGetDiseaseTargetsSummary at h
  split at h
  · simp at h
  · split at h
    · simp at h
    · simp at h
    · next st heq =>
      simp only [Option.some.injEq, SummaryOutcome.success.injEq] at h
      exact ⟨st, h.symm⟩

/-- Claim C10: every successful envelope of the two association-lookup
branches and of the disease-targets summary satisfies the
pagination-metadata invariant: returned equals min(requested, filtered),
returned equals the number of rows actually included in the response, and
returned never exceeds requested. -/
theorem C10_pagination_invariant (fetch : Nat → Except String Page)
    (a : AssocArgs) (s : SummaryArgs) (env : AssocResponse)
    (senv : SummaryResponse) :
    (handleGetTargetDiseaseAssociations fetch a
        = some (AssocOutcome.byTarget env) →
      env.pagination.returned
          = min env.pagination.requested env.pagination.filtered ∧
      env.pagination.returned = env.rows.length ∧
      env.pagination.returned ≤ env.pagination.requested) ∧
    (handleGetTargetDiseaseAssociations fetch a
        = some (AssocOutcome.byDisease env) →
      env.pagination.returned
          = min env.pagination.requested env.pagination.filtered ∧
      env.pagination.returned = env.rows.length ∧
      env.pagination.returned ≤ env.pagination.requested) ∧
    (handleGetDiseaseTargetsSummary fetch s
        = some (SummaryOutcome.success senv) →
      senv.pagination.returned
          = min senv.pagination.requested senv.pagination.filtered ∧
      senv.pagination.returned = senv.targets.length ∧
      senv.returnedTargets = senv.pagination.returned ∧
      senv.pagination.returned ≤ senv.pagination.requested) := by
  refine ⟨?_, ?_, ?_⟩ <;> intro h
  · obtain ⟨st, hL, rfl⟩ :=
      aggregateAssoc_ok_inv fetch (jsOrRat a.minScore 0) (jsOrNat a.size 100)
        env (handleAssoc_byTarget_inv fetch a env h)
    refine ⟨?_, ?_, ?_⟩ <;> simp [finishAgg, List.length_take]
  · obtain ⟨st, hL, rfl⟩ :=
      aggregateAssoc_ok_inv fetch (jsOrRat a.minScore 0) (jsOrNat a.size 100)
        env (handleAssoc_byDisease_inv fetch a env h)
    refine ⟨?_, ?_, ?_⟩ <;> simp [finishAgg, List.length_take]
  · obtain ⟨st, rfl⟩ := handleSummary_success_inv fetch s senv h
    refine ⟨?_, ?_, ?_, ?_⟩ <;>
      simp [finishSummary, List.length_take, List.length_map]

/-- Witness for C10 applied to the byTarget branch over a one-row honest
upstream with default arguments. -/
theorem C10_witness :
    envOneRow.pagination.returned
        = min envOneRow.pagination.requested envOneRow.pagination.filtered ∧
    envOneRow.pagination.returned = envOneRow.rows.length ∧
    envOneRow.pagination.returned ≤ envOneRow.pagination.requested :=
  (C10_pagination_invariant (honestFetch [rowHigh] "t" "n")
    { targetId := some "T", diseaseId := none, minScore := none,
      size := none }
    { id := none, diseaseId := none, minScore := none, size := none }
    envOneRow (finishSummary none none 0 50 initState)).1 (by decide)

/-- Invariant: once the loop is past its first iteration, the captured total
count and entity fields never change again, because the capture branch tests
pageIndex = 0 and accumulation leaves those fields untouched. -/
theorem aggLoop_preserves_capture (fetch : Nat → Except String Page)
    (R : Nat) :
    ∀ (fuel : Nat) (st stf : AggState), 1 ≤ st.pageIndex →
      aggLoop fetch R fuel st = some (Except.ok stf) →
      stf.totalCount = st.totalCount ∧ stf.entityId = st.entityId ∧
      stf.entityName = st.entityName := by
  intro fuel
  induction fuel with
  | zero =>
    intro st stf h1 h2
    simp [aggLoop] at h2
  | succ k ih =>
    intro st stf h1 h2
    simp only [aggLoop] at h2
    split at h2
    · simp at h2
    · next page heq =>
      have hcap : captureFirst st page = st := by
        unfold captureFirst
        rw [if_neg (by omega)]
      rw [hcap] at h2
      split at h2
      · have h3 := ih (appendPage st page.rows) stf
          (by simp only [appendPage_pageIndex]; omega) h2
        simpa using h3
      · simp only [Option.some.injEq, Except.ok.injEq] at h2
        rw [← h2]
        simp

/-- Claim C5: the total count and the entity display fields reported in a
successful association envelope are exactly those captured from the first
fetched page (page index 0).  The fetch oracle is arbitrary beyond page 0,
so counts and entity fields reported by any subsequent page are ignored. -/
theorem C5_first_page_authoritative (fetch : Nat → Except String Page)
    (mS : Rat) (R : Nat) (p0 : Page) (env : AssocResponse)
    (h0 : fetch 0 = Except.ok p0)
    (h : aggregateAssoc fetch mS R = some (Except.ok env)) :
    env.count = p0.count ∧ env.pagination.total = p0.count ∧
    env.entityId = p0.entityId ∧ env.entityName = p0.entityName := by
  obtain ⟨stf, hL, rfl⟩ := aggregateAssoc_ok_inv fetch mS R env h
  simp only [iterBound] at hL
  simp only [aggLoop] at hL
  split at hL
  · next e heq =>
    rw [initState_pageIndex, h0] at heq
    simp at heq
  · next page heq =>
    rw [initState_pageIndex, h0] at heq
    simp only [Except.ok.injEq] at heq
    subst heq
    have hcap : captureFirst initState p0
        = { allRows := [], pageIndex := 0, totalCount := p0.count,
            entityId := p0.entityId, entityName := p0.entityName } := by
      simp [captureFirst, initState]
    rw [hcap] at hL
    split at hL
    · have h3 := aggLoop_preserves_capture fetch R _ _ stf
        (by simp only [appendPage_pageIndex]; omega) hL
      have h4 : stf.totalCount = p0.count ∧ stf.entityId = p0.entityId ∧
          stf.entityName = p0.entityName := by
        simpa using h3
      refine ⟨?_, ?_, ?_, ?_⟩ <;>
        simp [finishAgg, h4.1, h4.2.1, h4.2.2]
    · simp only [Option.some.injEq, Except.ok.injEq] at hL
      rw [← hL]
      refine ⟨?_, ?_, ?_, ?_⟩ <;> simp [finishAgg]

/-- Witness for C5: a first page reporting 150 rows, a second page reporting
a contradictory 999 and different entity fields; the envelope reports 150
and the first page's fields. -/
theorem C5_witness :
    fetchTwoCounts 0 = Except.ok pageFirstOf150 ∧
    aggregateAssoc fetchTwoCounts 0 150 = some (Except.ok envTwoCounts) ∧
    (envTwoCounts.count = pageFirstOf150.count ∧
     envTwoCounts.pagination.total = pageFirstOf150.count ∧
     envTwoCounts.entityId = pageFirstOf150.entityId ∧
     envTwoCounts.entityName = pageFirstOf150.entityName) :=
  ⟨rfl, by decide,
   C5_first_page_authoritative fetchTwoCounts 0 150 pageFirstOf150
     envTwoCounts rfl (by decide)⟩

/-- One-step unfolding of the loop when the fetch succeeds. -/
theorem aggLoop_step_ok (fetch : Nat → Except String Page) (R fuel : Nat)
    (st : AggState) (page : Page)
    (hp : fetch st.pageIndex = Except.ok page) :
    aggLoop fetch R (fuel + 1) st =
      if page.rows.length = pageSize ∧
          (appendPage (captureFirst st page) page.rows).allRows.length
            < (appendPage (captureFirst st page) page.rows).totalCount ∧
          (appendPage (captureFirst st page) page.rows).allRows.length < R
      then aggLoop fetch R fuel (appendPage (captureFirst st page) page.rows)
      else some (Except.ok (appendPage (captureFirst st page) page.rows)) := by
  simp only [aggLoop]
  rw [hp]

/-- One-step unfolding of the loop when the fetch throws. -/
theorem aggLoop_step_error (fetch : Nat → Except String Page) (R fuel : Nat)
    (st : AggState) (e : String)
    (he : fetch st.pageIndex = Except.error e) :
    aggLoop fetch R (fuel + 1) st = some (Except.error e) := by
  simp only [aggLoop]
  rw [he]

/-- Error propagation: if pages 0 through N-1 are all full and keep every
continuation condition true, and page N throws, then the loop returns
exactly the thrown error, from any mid-state consistent with having
accumulated the earlier full pages. -/
theorem aggLoop_error_run (fetch : Nat → Except String Page) (R : Nat)
    (e : String) (N : Nat) (p0 : Page)
    (h0 : fetch 0 = Except.ok p0)
    (hfull : ∀ k, k < N →
      ∃ p, fetch k = Except.ok p ∧ p.rows.length = pageSize)
    (hcont : ∀ k, k < N → pageSize * (k + 1) < p0.count ∧
      pageSize * (k + 1) < R)
    (herr : fetch N = Except.error e) :
    ∀ (m fuel : Nat) (st : AggState), st.pageIndex + m = N →
      st.allRows.length = pageSize * st.pageIndex →
      (st.pageIndex = 0 ∨ st.totalCount = p0.count) →
      m + 1 ≤ fuel →
      aggLoop fetch R fuel st = some (Except.error e) := by
  intro m
  induction m with
  | zero =>
    intro fuel st hpi hlen htc hfuel
    cases fuel with
    | zero => omega
    | succ f =>
      apply aggLoop_step_error fetch R f st e
      rw [show st.pageIndex = N by omega, herr]
  | succ mm ih =>
    intro fuel st hpi hlen htc hfuel
    cases fuel with
    | zero => omega
    | succ f =>
      have hkN : st.pageIndex < N := by omega
      obtain ⟨p, hp, hplen⟩ := hfull st.pageIndex hkN
      have hTC2 : (captureFirst st p).totalCount = p0.count := by
        unfold captureFirst
        split
        · next hz =>
          rw [hz, h0] at hp
          simp only [Except.ok.injEq] at hp
          show p.count = p0.count
          rw [hp]
        · next hz =>
          rcases htc with h | h
          · exact absurd h hz
          · exact h
      have hc := hcont st.pageIndex hkN
      have hcnd : p.rows.length = pageSize ∧
          (appendPage (captureFirst st p) p.rows).allRows.length
            < (appendPage (captureFirst st p) p.rows).totalCount ∧
          (appendPage (captureFirst st p) p.rows).allRows.length < R := by
        refine ⟨hplen, ?_, ?_⟩ <;>
          simp only [appendPage_allRows, captureFirst_allRows,
            appendPage_totalCount, hTC2, List.length_append, hlen,
            hplen] <;>
          simp only [pageSize] at hc ⊢ <;> omega
      rw [aggLoop_step_ok fetch R f st p hp, if_pos hcnd]
      apply ih f (appendPage (captureFirst st p) p.rows)
      · simp only [appendPage_pageIndex, captureFirst_pageIndex]
        omega
      · simp only [appendPage_allRows, captureFirst_allRows,
          List.length_append, hlen, hplen, appendPage_pageIndex,
          captureFirst_pageIndex, pageSize]
        omega
      · exact Or.inr (by simp only [appendPage_totalCount, hTC2])
      · omega

/-- Claim C4: when a fetch throws on iteration N of the aggregation loop
after N full pages have already been accumulated and would have kept the
loop going, the whole operation returns the single upstream-failure error
envelope, which carries no rows: both association branches and the summary
handler discard the accumulated rows. -/
theorem C4_midstream_failure_discards (fetch : Nat → Except String Page)
    (R : Nat) (mS : Rat) (e : String) (N : Nat) (p0 : Page)
    (hN : 1 ≤ N)
    (h0 : fetch 0 = Except.ok p0)
    (hfull : ∀ k, k < N →
      ∃ p, fetch k = Except.ok p ∧ p.rows.length = pageSize)
    (hcont : ∀ k, k < N → pageSize * (k + 1) < p0.count ∧
      pageSize * (k + 1) < R)
    (herr : fetch N = Except.error e)
    (hR1 : 0 < R) (hR2 : R ≤ 50000) (hm1 : 0 ≤ mS) (hm2 : mS ≤ 1) :
    aggregateAssoc fetch mS R = some (Except.error e) ∧
    handleGetTargetDiseaseAssociations fetch
        { targetId := some "T", diseaseId := none, minScore := some mS,
          size := some R } = some (AssocOutcome.upstreamError e) ∧
    handleGetDiseaseTargetsSummary fetch
        { id := none, diseaseId := some "D", minScore := some mS,
          size := some R } = some (SummaryOutcome.upstreamError e) := by
  have hloop : ∀ fuel, N + 1 ≤ fuel →
      aggLoop fetch R fuel initState = some (Except.error e) := by
    intro fuel hf
    exact aggLoop_error_run fetch R e N p0 h0 hfull hcont herr N fuel
      initState (by simp) (by simp) (Or.inl rfl) hf
  have hNbound : 100 * N < R := by
    have hc := hcont (N - 1) (by omega)
    have hN1 : N - 1 + 1 = N := by omega
    rw [hN1] at hc
    simpa [pageSize] using hc.2
  have hfuel : N + 1 ≤ iterBound R := by
    simp only [iterBound, pageSize]
    omega
  have hagg : aggregateAssoc fetch mS R = some (Except.error e) := by
    unfold aggregateAssoc
    rw [hloop (iterBound R) hfuel]
  have hjsR : jsOrNat (some R) 100 = R := by
    simp only [jsOrNat]
    rw [if_neg (by omega)]
  have hjsR50 : jsOrNat (some R) 50 = R := by
    simp only [jsOrNat]
    rw [if_neg (by omega)]
  have hjsm : jsOrRat (some mS) 0 = mS := by
    simp only [jsOrRat]
    split
    · next hq => rw [hq]
    · rfl
  refine ⟨hagg, ?_, ?_⟩
  · have hv : isValidAssociationArgs
        { targetId := some "T", diseaseId := none, minScore := some mS,
          size := some R } = true := by
      simp [isValidAssociationArgs, hm1, hm2, hR1, hR2]
    have hbt : (truthy (some "T") && !truthy (none : Option String))
        = true := by decide
    unfold handleGetTargetDiseaseAssociations
    simp only [hv, hbt, Bool.not_true, Bool.false_eq_true, if_false, if_true]
    rw [hjsm, hjsR, hagg]
  · have hsd : (!isValidIdArgs (none : Option String)
        && !truthy (some "D")) = false := by decide
    unfold handleGetDiseaseTargetsSummary
    simp only [hsd, Bool.false_eq_true, if_false]
    rw [hjsR50, hloop (iterBound R) hfuel]

/-- Witness for C4: one full page reporting 300 rows, throw on page 1,
requested size 250. -/
theorem C4_witness :
    fetchBoom 1 = Except.error "boom" ∧
    (aggregateAssoc fetchBoom 0 250 = some (Except.error "boom") ∧
     handleGetTargetDiseaseAssociations fetchBoom
        { targetId := some "T", diseaseId := none, minScore := some 0,
          size := some 250 } = some (AssocOutcome.upstreamError "boom") ∧
     handleGetDiseaseTargetsSummary fetchBoom
        { id := none, diseaseId := some "D", minScore := some 0,
          size := some 250 } = some (SummaryOutcome.upstreamError "boom")) :=
  ⟨rfl,
   C4_midstream_failure_discards fetchBoom 250 0 "boom" 1 pageFullLow
     (by decide) rfl
     (fun k hk => by
       have hk0 : k = 0 := by omega
       subst hk0
       exact ⟨pageFullLow, rfl, by decide⟩)
     (fun k hk => by
       have hk0 : k = 0 := by omega
       subst hk0
       constructor <;> decide)
     rfl (by decide) (by decide) (by decide) (by decide)⟩

@[simp]
theorem honestPage_rows (ds : List Row) (a b : String) (i : Nat) :
    (honestPage ds a b i).rows = (ds.drop (pageSize * i)).take pageSize := rfl

@[simp]
theorem honestPage_count (ds : List Row) (a b : String) (i : Nat) :
    (honestPage ds a b i).count = ds.length := rfl

@[simp]
theorem honestPage_entityId (ds : List Row) (a b : String) (i : Nat) :
    (honestPage ds a b i).entityId = some a := rfl

@[simp]
theorem honestPage_entityName (ds : List Row) (a b : String) (i : Nat) :
    (honestPage ds a b i).entityName = some b := rfl

/-- Taking again by the length of a take is the same take. -/
theorem take_length_take (ds : List Row) (m : Nat) :
    ds.take ((ds.take m).length) = ds.take m := by
  rw [List.length_take]
  rcases le_total m ds.length with h | h
  · rw [min_eq_left h]
  · rw [min_eq_right h, List.take_length, List.take_of_length_le h]

/-- Characterization of the loop over an honest upstream: it terminates
normally, captures the true length and the entity fields, keeps the
accumulator a prefix of the dataset of pageSize rows per completed page,
and ends with at least min(requested, length) rows and at most all rows. -/
theorem honestRun (ds : List Row) (a b : String) (R : Nat) :
    ∀ (fuel k : Nat) (st : AggState),
      st.pageIndex = k →
      st.allRows = ds.take (pageSize * k) →
      (k ≠ 0 → st.totalCount = ds.length ∧ pageSize * k < ds.length ∧
        pageSize * k < R ∧ st.entityId = some a ∧ st.entityName = some b) →
      min R ds.length ≤ pageSize * k + pageSize * fuel →
      ∃ stf : AggState,
        aggLoop (honestFetch ds a b) R (fuel + 1) st
          = some (Except.ok stf) ∧
        stf.totalCount = ds.length ∧ stf.entityId = some a ∧
        stf.entityName = some b ∧
        stf.allRows = ds.take (pageSize * stf.pageIndex) ∧
        min R ds.length ≤ stf.allRows.length ∧
        stf.allRows.length ≤ ds.length := by
  intro fuel
  induction fuel with
  | zero =>
    intro k st hpi hrows hcap hfl
    have hp : honestFetch ds a b st.pageIndex
        = Except.ok (honestPage ds a b k) := by
      rw [hpi]
      rfl
    rw [aggLoop_step_ok (honestFetch ds a b) R 0 st (honestPage ds a b k) hp]
    have hTC : (captureFirst st (honestPage ds a b k)).totalCount
        = ds.length := by
      unfold captureFirst
      split
      · rfl
      · next hz => exact (hcap (fun h => hz (by rw [hpi, h]))).1
    have hEI : (captureFirst st (honestPage ds a b k)).entityId
        = some a := by
      unfold captureFirst
      split
      · rfl
      · next hz => exact (hcap (fun h => hz (by rw [hpi, h]))).2.2.2.1
    have hEN : (captureFirst st (honestPage ds a b k)).entityName
        = some b := by
      unfold captureFirst
      split
      · rfl
      · next hz => exact (hcap (fun h => hz (by rw [hpi, h]))).2.2.2.2
    have hA2 : (appendPage (captureFirst st (honestPage ds a b k))
        (honestPage ds a b k).rows).allRows
        = ds.take (pageSize * k + pageSize) := by
      simp only [appendPage_allRows, captureFirst_allRows, honestPage_rows,
        hrows]
      exact (List.take_add ds (pageSize * k) pageSize).symm
    have hlen2 : (appendPage (captureFirst st (honestPage ds a b k))
        (honestPage ds a b k).rows).allRows.length
        = min (pageSize * k + pageSize) ds.length := by
      rw [hA2, List.length_take]
    have hrl : (honestPage ds a b k).rows.length
        = min pageSize (ds.length - pageSize * k) := by
      simp [List.length_take, List.length_drop]
    have hTC2 : (appendPage (captureFirst st (honestPage ds a b k))
        (honestPage ds a b k).rows).totalCount = ds.length := by
      rw [appendPage_totalCount, hTC]
    have hkL : k = 0 ∨ pageSize * k < ds.length := by
      rcases Nat.eq_zero_or_pos k with h | h
      · exact Or.inl h
      · exact Or.inr (hcap (by omega)).2.1
    rw [if_neg ?hstop]
    case hstop =>
      rw [hrl, hlen2, hTC2]
      simp only [pageSize] at hfl ⊢
      omega
    refine ⟨_, rfl, hTC2, ?_, ?_, ?_, ?_, ?_⟩
    · rw [appendPage_entityId]
      exact hEI
    · rw [appendPage_entityName]
      exact hEN
    · have hmul : pageSize * k + pageSize = pageSize * (k + 1) := by
        simp only [pageSize]
        omega
      simp only [appendPage_pageIndex, captureFirst_pageIndex, hpi]
      rw [hA2, hmul]
    · rw [hlen2]
      simp only [pageSize] at hfl hkL ⊢
      omega
    · rw [hlen2]
      omega
  | succ f ih =>
    intro k st hpi hrows hcap hfl
    have hp : honestFetch ds a b st.pageIndex
        = Except.ok (honestPage ds a b k) := by
      rw [hpi]
      rfl
    rw [aggLoop_step_ok (honestFetch ds a b) R (f + 1) st
      (honestPage ds a b k) hp]
    have hTC : (captureFirst st (honestPage ds a b k)).totalCount
        = ds.length := by
      unfold captureFirst
      split
      · rfl
      · next hz => exact (hcap (fun h => hz (by rw [hpi, h]))).1
    have hEI : (captureFirst st (honestPage ds a b k)).entityId
        = some a := by
      unfold captureFirst
      split
      · rfl
      · next hz => exact (hcap (fun h => hz (by rw [hpi, h]))).2.2.2.1
    have hEN : (captureFirst st (honestPage ds a b k)).entityName
        = some b := by
      unfold captureFirst
      split
      · rfl
      · next hz => exact (hcap (fun h => hz (by rw [hpi, h]))).2.2.2.2
    have hA2 : (appendPage (captureFirst st (honestPage ds a b k))
        (honestPage ds a b k).rows).allRows
        = ds.take (pageSize * k + pageSize) := by
      simp only [appendPage_allRows, captureFirst_allRows, honestPage_rows,
        hrows]
      exact (List.take_add ds (pageSize * k) pageSize).symm
    have hlen2 : (appendPage (captureFirst st (honestPage ds a b k))
        (honestPage ds a b k).rows).allRows.length
        = min (pageSize * k + pageSize) ds.length := by
      rw [hA2, List.length_take]
    have hrl : (honestPage ds a b k).rows.length
        = min pageSize (ds.length - pageSize * k) := by
      simp [List.length_take, List.length_drop]
    have hTC2 : (appendPage (captureFirst st (honestPage ds a b k))
        (honestPage ds a b k).rows).totalCount = ds.length := by
      rw [appendPage_totalCount, hTC]
    by_cases hcond : ((honestPage ds a b k).rows.length = pageSize ∧
        (appendPage (captureFirst st (honestPage ds a b k))
          (honestPage ds a b k).rows).allRows.length
          < (appendPage (captureFirst st (honestPage ds a b k))
              (honestPage ds a b k).rows).totalCount ∧
        (appendPage (captureFirst st (honestPage ds a b k))
          (honestPage ds a b k).rows).allRows.length < R)
    · rw [if_pos hcond]
      rw [hrl, hlen2, hTC2] at hcond
      apply ih (k + 1) (appendPage (captureFirst st (honestPage ds a b k))
        (honestPage ds a b k).rows)
      · simp [appendPage_pageIndex, captureFirst_pageIndex, hpi]
      · have hmul : pageSize * k + pageSize = pageSize * (k + 1) := by
          simp only [pageSize]
          omega
        rw [hA2, hmul]
      · intro _
        refine ⟨hTC2, ?_, ?_, ?_, ?_⟩
        · simp only [pageSize] at hcond ⊢
          omega
        · simp only [pageSize] at hcond ⊢
          omega
        · rw [appendPage_entityId]
          exact hEI
        · rw [appendPage_entityName]
          exact hEN
      · simp only [pageSize] at hfl ⊢
        omega
    · rw [if_neg hcond]
      rw [hrl, hlen2, hTC2] at hcond
      refine ⟨_, rfl, hTC2, ?_, ?_, ?_, ?_, ?_⟩
      · rw [appendPage_entityId]
        exact hEI
      · rw [appendPage_entityName]
        exact hEN
      · have hmul : pageSize * k + pageSize = pageSize * (k + 1) := by
          simp only [pageSize]
          omega
        simp only [appendPage_pageIndex, captureFirst_pageIndex, hpi]
        rw [hA2, hmul]
      · rw [hlen2]
        simp only [pageSize] at hcond hfl ⊢
        omega
      · rw [hlen2]
        omega

/-- Counterexample to claim C1 as stated: dataset of 101 rows where only the
single row on the second page passes the minimum-score filter, requested
size 1.  The loop stops after the full first page because the accumulator
already holds at least the requested size, the filter then runs over the
fetched rows only, and 0 rows are returned, not
min(1, filtered(101 rows)) = 1. -/
theorem C1_counterexample :
    ¬ (aggReturned (aggregateAssoc (honestFetch dsCounter "t" "n") 1 1)
        = some (min 1 ((applyMinScore 1 dsCounter).length))) := by decide

/-- Claim C1 amended: against an honest upstream dataset, the aggregation
returns exactly min(R, filteredFetched) rows, where filteredFetched applies
the minimum-score predicate to the prefix of the dataset the loop actually
fetched; that prefix always holds at least min(R, T) of the T dataset rows.
When no minimum-score filter is in effect the aggregation returns exactly
min(R, T) rows; with a filter, rows beyond the fetched prefix are never
inspected, so the claimed min(R, filtered(T)) does not hold in general. -/
theorem C1_amended_returned_count (ds : List Row) (a b : String)
    (mS : Rat) (R : Nat) :
    (∃ n, min R ds.length ≤ n ∧ n ≤ ds.length ∧
      aggReturned (aggregateAssoc (honestFetch ds a b) mS R)
        = some (min R ((applyMinScore mS (ds.take n)).length))) ∧
    (mS = 0 → aggReturned (aggregateAssoc (honestFetch ds a b) mS R)
        = some (min R ds.length)) := by
  obtain ⟨stf, hrun, hTC, hEI, hEN, hrows, hlen1, hlen2⟩ :=
    honestRun ds a b R ((R + 99) / 100) 0 initState rfl
      (by simp) (fun h => absurd rfl h)
      (by simp only [pageSize]; omega)
  have hIB : iterBound R = (R + 99) / 100 + 1 := by
    simp [iterBound, pageSize]
  have hval : aggregateAssoc (honestFetch ds a b) mS R
      = some (Except.ok (finishAgg mS R stf)) := by
    unfold aggregateAssoc
    rw [hIB, hrun]
  have htake : ds.take stf.allRows.length = stf.allRows := by
    calc ds.take stf.allRows.length
        = ds.take ((ds.take (pageSize * stf.pageIndex)).length) := by
          rw [hrows]
      _ = ds.take (pageSize * stf.pageIndex) := take_length_take ds _
      _ = stf.allRows := hrows.symm
  constructor
  · refine ⟨stf.allRows.length, hlen1, hlen2, ?_⟩
    rw [hval]
    simp only [aggReturned]
    rw [htake]
    simp [finishAgg, List.length_take]
  · intro h0
    subst h0
    rw [hval]
    simp only [aggReturned]
    simp only [finishAgg, applyMinScore, lt_irrefl, if_false,
      List.length_take]
    simp only [Option.some.injEq]
    omega

/-- Witness for C1 amended: unfiltered aggregation over the 101-row dataset
with requested size 7 returns exactly min(7, 101) = 7 rows. -/
theorem C1_witness :
    aggReturned (aggregateAssoc (honestFetch dsCounter "a" "b") 0 7)
      = some (min 7 dsCounter.length) :=
  (C1_amended_returned_count dsCounter "a" "b" 0 7).2 rfl
